import Mathlib

/-!
Verification of the provider-abstraction / fallback / caching core of the
interviewMe backend, shallowly embedded in Lean 4.

The embedded functions mirror, definition by definition:
  * `src/ai/text_generation/text_generation.py` — `TextGenerationService`
    (completion / chat dispatch with provider fallback, the Hugging Face
    message flattening, the Hugging Face response parsing);
  * `src/ai/llm.py` — `LLMService` (Perplexity response parsing, the
    `count_tokens` estimator, the `get_llm_service` singleton accessor);
  * `src/ai/voice_synthesis/service.py` — `VoiceSynthesisService`
    (`_get_cache_filename` and the cache logic of `synthesize_text`).

Python strings are modelled as Lean `String`; numeric synthesis parameters
(speaking rate, pitch, volume gain) enter the cache key only through their
f-string renderings, so they are carried as their rendered decimal strings.
Network calls are oracles: a provider attempt is a value (or a function of the
request) of type `Except String String` supplied by the environment, and the
model additionally returns the ordered trace of providers attempted.
Filesystem effects of the audio cache are an explicit environment record.
-/

namespace InterviewMe

/-! ## Python string lowercasing
The roles compared by the source are plain ASCII ("system", "user",
"assistant"); Python's str.lower is modelled on the ASCII range. -/

/-- ASCII lowercasing of one character, as Python's str.lower acts on the
ASCII range. -/
def lowerChar (c : Char) : Char :=
  if 'A' ≤ c ∧ c ≤ 'Z' then Char.ofNat (c.toNat + 32) else c

/-- `s.lower()` on ASCII strings: lowercase every character. -/
def pyLower (s : String) : String :=
  ⟨s.data.map lowerChar⟩

/-! ## Chat messages (Python dicts with "role" / "content" keys) -/

/-- A chat message; `message.get("role", "")` / `message.get("content", "")`
never fail in the source, so a missing key is the empty string. -/
structure ChatMessage where
  role : String
  content : String
deriving DecidableEq, Repr

/-! ## Hugging Face chat flattening
(`_generate_huggingface_chat`, text_generation.py lines 278–295) -/

/-- The prompt-accumulation loop body of `_generate_huggingface_chat`:
one message either appends its role-delimited block or leaves the prompt
unchanged. -/
def hfStep (prompt : String) (message : ChatMessage) : String :=
  let role := pyLower message.role
  let content := message.content
  if role = "system" then prompt ++ "<|system|>\n" ++ content ++ "\n"
  else if role = "user" then prompt ++ "<|user|>\n" ++ content ++ "\n"
  else if role = "assistant" then prompt ++ "<|assistant|>\n" ++ content ++ "\n"
  else prompt

/-- The full flattening of `_generate_huggingface_chat`: fold the loop over
the messages starting from the empty prompt, then append the trailing open
assistant marker. -/
def hfFlattenMessages (messages : List ChatMessage) : String :=
  (messages.foldl hfStep "") ++ "<|assistant|>\n"

/-- The rendering of a single message as the spec describes it: a
role-delimiter block for the three known roles, nothing otherwise. -/
def hfRenderMessage (message : ChatMessage) : String :=
  let role := pyLower message.role
  if role = "system" then "<|system|>\n" ++ message.content ++ "\n"
  else if role = "user" then "<|user|>\n" ++ message.content ++ "\n"
  else if role = "assistant" then "<|assistant|>\n" ++ message.content ++ "\n"
  else ""

/-- Spec-side description of the flattening: the concatenation of the
per-message renderings in original order, terminated by the open
assistant marker. -/
def hfSpecFlatten (messages : List ChatMessage) : String :=
  String.join (messages.map hfRenderMessage) ++ "<|assistant|>\n"

/-! ## Token estimator (`count_tokens`, llm.py lines 124–135 and
perplexity_service.py lines 123–139: `len(text) // 4 + 1`) -/

/-- `count_tokens` of both `LLMService` and `PerplexityService`:
`len(text) // 4 + 1`. -/
def count_tokens (text : String) : Nat :=
  text.length / 4 + 1

/-- The estimator as the spec words it: `len(text)/4` rounded up,
with a minimum of 1. -/
def specTokenEstimate (text : String) : Nat :=
  max ((text.length + 3) / 4) 1

/-! ## Cache key (`_get_cache_filename`, voice_synthesis/service.py 87–119) -/

/-- The seven synthesis parameters that feed `_get_cache_filename`.
The numeric parameters (speaking rate, pitch, volume gain) only reach the
key through their f-string renderings, so they are carried as those
rendered decimal strings. -/
structure SynthesisParams where
  text : String
  voice_name : String
  speaking_rate : String
  pitch : String
  gender : String
  language_code : String
  volume_gain_db : String
deriving DecidableEq, Repr

/-- The pre-hash string of `_get_cache_filename`:
the f-string joining all seven parameters with a ":" separator. -/
def paramsStr (p : SynthesisParams) : String :=
  p.text ++ ":" ++ p.voice_name ++ ":" ++ p.speaking_rate ++ ":" ++ p.pitch
    ++ ":" ++ p.gender ++ ":" ++ p.language_code ++ ":" ++ p.volume_gain_db

/-- The cache key: the digest of the joined parameter string. The concrete
digest (MD5 hexdigest in the source) is abstracted as a function argument;
the spec claims treat it as idealized (injective). -/
def cacheKey (hash : String → String) (p : SynthesisParams) : String :=
  hash (paramsStr p)

/-- The cache file path built by `_get_cache_filename`:
`os.path.join(cache_dir, "tts_" + digest + ".mp3")`. -/
def cacheFilename (hash : String → String) (cache_dir : String)
    (p : SynthesisParams) : String :=
  cache_dir ++ "/tts_" ++ cacheKey hash p ++ ".mp3"

/-! ## Cache behaviour of `synthesize_text`
(voice_synthesis/service.py 121–197). The filesystem at the computed cache
path is an explicit environment record; the provider call
(`_synthesize_text_sync`) is an oracle assumed to succeed with the given
audio bytes, since the claims concern the cache logic around a successful
synthesis. -/

/-- The filesystem behaviour observed at the cache path during one
`synthesize_text` call: whether `os.path.exists` is true, what
`aiofiles.os.stat` returns (`st_size`, or the exception it raises), what
reading the file returns (the bytes, or the exception raised), and whether
the cache write succeeds. -/
structure CacheEnv where
  pathExists : Bool
  statResult : Except String Nat
  readResult : Except String (List Nat)
  writeResult : Except String Unit

/-- The observable outcome of one `synthesize_text` call: the bytes
returned to the caller, how many provider (network) calls were made, and
whether a cache-write error was caught and logged. -/
structure SynthOutcome where
  audio : List Nat
  providerCalls : Nat
  cacheWriteErrorLogged : Bool
deriving DecidableEq, Repr

/-- The cache logic of `synthesize_text`. On the hit path: only when
caching is enabled, the path exists, stat succeeds with `st_size > 0` and
the read succeeds are the cached bytes returned with zero provider calls;
an exception from stat or read is caught (the try block spans both) and
falls through to synthesis. On the miss path the provider is called once
and, when caching is enabled, a failing cache write is caught and logged
while the audio is still returned. -/
def synthesize_text (use_cache : Bool) (env : CacheEnv)
    (providerAudio : List Nat) : SynthOutcome :=
  let cached : Option (List Nat) :=
    if use_cache && env.pathExists then
      match env.statResult with
      | .ok size =>
          if size > 0 then
            match env.readResult with
            | .ok bytes => some bytes
            | .error _ => none
          else none
      | .error _ => none
    else none
  match cached with
  | some bytes =>
      { audio := bytes, providerCalls := 0, cacheWriteErrorLogged := false }
  | none =>
      let writeErr :=
        if use_cache then
          match env.writeResult with
          | .ok _ => false
          | .error _ => true
        else false
      { audio := providerAudio, providerCalls := 1,
        cacheWriteErrorLogged := writeErr }

/-! ## Fallback orchestration of `TextGenerationService`
(text_generation.py 93–138 and 140–185). A provider attempt is an oracle
value; the result carries the ordered trace of providers attempted. The
`self.provider` flip/restore of the source is invisible here because every
path restores `old_provider` before returning or re-raising. -/

/-- `generate_completion`: dispatch on the configured provider; on an
exception from the primary, fall back once to the other provider; a bare
raise in the inner except re-raises the fallback's failure; an unsupported
provider raises before any attempt. -/
def generate_completion (provider : String)
    (perplexity huggingface : Except String String) :
    Except String String × List String :=
  if provider = "perplexity" then
    match perplexity with
    | .ok result => (.ok result, ["perplexity"])
    | .error _ =>
        match huggingface with
        | .ok result => (.ok result, ["perplexity", "huggingface"])
        | .error fallback_error =>
            (.error fallback_error, ["perplexity", "huggingface"])
  else if provider = "huggingface" then
    match huggingface with
    | .ok result => (.ok result, ["huggingface"])
    | .error _ =>
        match perplexity with
        | .ok result => (.ok result, ["huggingface", "perplexity"])
        | .error fallback_error =>
            (.error fallback_error, ["huggingface", "perplexity"])
  else (.error ("Unsupported provider: " ++ provider), [])

/-- `generate_chat_completion`: same chain as `generate_completion`, with
the provider attempts now functions of the message list. No validation of
the message list happens anywhere before dispatch. -/
def generate_chat_completion (provider : String)
    (perplexityChat huggingfaceChat : List ChatMessage → Except String String)
    (messages : List ChatMessage) :
    Except String String × List String :=
  if provider = "perplexity" then
    match perplexityChat messages with
    | .ok result => (.ok result, ["perplexity"])
    | .error _ =>
        match huggingfaceChat messages with
        | .ok result => (.ok result, ["perplexity", "huggingface"])
        | .error fallback_error =>
            (.error fallback_error, ["perplexity", "huggingface"])
  else if provider = "huggingface" then
    match huggingfaceChat messages with
    | .ok result => (.ok result, ["huggingface"])
    | .error _ =>
        match perplexityChat messages with
        | .ok result => (.ok result, ["huggingface", "perplexity"])
        | .error fallback_error =>
            (.error fallback_error, ["huggingface", "perplexity"])
  else (.error ("Unsupported provider: " ++ provider), [])

/-! ## Response-body parsing (C5) -/

/-- A JSON value, as decoded from a 200 response body. -/
inductive Json where
  | null
  | bool (b : Bool)
  | str (s : String)
  | num (n : Int)
  | arr (elems : List Json)
  | obj (fields : List (String × Json))

/-- The 200-body handling of `LLMService.generate_chat_completion`
(llm.py 109–118): `result["choices"][0]["message"]["content"]` inside a
try that catches KeyError and IndexError and re-raises
"Failed to parse Perplexity API response". Shapes on which Python would
instead raise an uncaught TypeError (indexing a non-dict, non-str value)
are mapped to `.error "TypeError"`; either way no result is returned. -/
def parsePerplexityBody (result : Json) : Except String Json :=
  match result with
  | .obj fields =>
      match fields.lookup "choices" with
      | some (.arr (first :: _)) =>
          match first with
          | .obj ffields =>
              match ffields.lookup "message" with
              | some (.obj mfields) =>
                  match mfields.lookup "content" with
                  | some content => .ok content
                  | none => .error "Failed to parse Perplexity API response"
              | some _ => .error "TypeError"
              | none => .error "Failed to parse Perplexity API response"
          | _ => .error "TypeError"
      | some (.arr []) => .error "Failed to parse Perplexity API response"
      | some _ => .error "TypeError"
      | none => .error "Failed to parse Perplexity API response"
  | _ => .error "TypeError"

/-- The 200-body handling of `_generate_huggingface_completion`
(text_generation.py 273–276): a non-empty list yields
`result[0].get("generated_text", "")`, any other dict yields
`result.get("generated_text", "")` — both return the empty string when the
field is absent; only non-dict shapes raise (AttributeError on `.get`). -/
def parseHuggingfaceBody (result : Json) : Except String Json :=
  match result with
  | .arr (first :: _) =>
      match first with
      | .obj ffields => .ok ((ffields.lookup "generated_text").getD (.str ""))
      | _ => .error "AttributeError"
  | .arr [] => .error "AttributeError"
  | .obj fields => .ok ((fields.lookup "generated_text").getD (.str ""))
  | _ => .error "AttributeError"

/-! ## Singleton accessors (llm.py 138–152, voice_synthesis/service.py
298–320). The process-global variable is passed as explicit state. -/

/-- The state held by a constructed `LLMService`. -/
structure LLMServiceState where
  api_key : String
  model : String
deriving DecidableEq, Repr

/-- `LLMService.__init__` (llm.py 23–36). Python's `or` treats both None
and the empty string as falsy; an absent value is modelled as `""`.
Returns the constructed service together with whether the missing-key
warning was logged. The constructor never raises: a missing API key only
logs "No Perplexity API key provided" and construction completes. -/
def llmServiceInit (api_key settings_api_key settings_model : String) :
    LLMServiceState × Bool :=
  let key := if api_key = "" then settings_api_key else api_key
  let warned := key == ""
  let model := if settings_model = "" then "pplx-70b-online" else settings_model
  ({ api_key := key, model := model }, warned)

/-- `get_llm_service` (llm.py 142–152): the global `_llm_service` is the
input and output `Option`; on None it constructs `LLMService()` (no
explicit api_key, hence the settings value) and stores it. -/
def get_llm_service (state : Option LLMServiceState)
    (settings_api_key settings_model : String) :
    LLMServiceState × Option LLMServiceState :=
  match state with
  | some service => (service, some service)
  | none =>
      let service := (llmServiceInit "" settings_api_key settings_model).1
      (service, some service)

/-- The state held by a constructed `VoiceSynthesisService`, as far as the
singleton accessor is concerned. -/
structure VoiceServiceState where
  credentials_path : Option String
  cache_dir : String
deriving DecidableEq, Repr

/-- `get_voice_synthesis_service` (voice_synthesis/service.py 302–320):
on None, reads GOOGLE_APPLICATION_CREDENTIALS from the environment,
constructs the service and stores it; otherwise returns the stored
instance. -/
def get_voice_synthesis_service (state : Option VoiceServiceState)
    (env_credentials : Option String) (default_cache_dir : String) :
    VoiceServiceState × Option VoiceServiceState :=
  match state with
  | some service => (service, some service)
  | none =>
      let service : VoiceServiceState :=
        { credentials_path := env_credentials, cache_dir := default_cache_dir }
      (service, some service)

/-! ## Helper lemmas on String.join and the flattening fold -/

theorem foldl_append_join (l : List String) (a : String) :
    l.foldl (fun r s => r ++ s) a = a ++ String.join l := by
  induction l generalizing a with
  | nil => exact (String.append_empty a).symm
  | cons x xs ih =>
      show xs.foldl (fun r s => r ++ s) (a ++ x) = a ++ String.join (x :: xs)
      rw [ih]
      have hx : String.join (x :: xs) = x ++ String.join xs := by
        show xs.foldl (fun r s => r ++ s) ("" ++ x) = x ++ String.join xs
        rw [ih, String.empty_append]
      rw [hx, String.append_assoc]

theorem join_cons (x : String) (xs : List String) :
    String.join (x :: xs) = x ++ String.join xs := by
  show xs.foldl (fun r s => r ++ s) ("" ++ x) = x ++ String.join xs
  rw [foldl_append_join, String.empty_append]

theorem join_append (l1 l2 : List String) :
    String.join (l1 ++ l2) = String.join l1 ++ String.join l2 := by
  show (l1 ++ l2).foldl (fun r s => r ++ s) "" = _
  rw [List.foldl_append, foldl_append_join]
  rfl

theorem join_all_empty (l : List String) (h : ∀ s ∈ l, s = "") :
    String.join l = "" := by
  induction l with
  | nil => rfl
  | cons x xs ih =>
      rw [join_cons, h x (List.mem_cons_self x xs), String.empty_append]
      exact ih fun s hs => h s (List.mem_cons_of_mem _ hs)

theorem hfStep_eq_append (a : String) (m : ChatMessage) :
    hfStep a m = a ++ hfRenderMessage m := by
  simp only [hfStep, hfRenderMessage]
  by_cases h1 : pyLower m.role = "system"
  · simp [h1, String.append_assoc]
  · by_cases h2 : pyLower m.role = "user"
    · simp [h1, h2, String.append_assoc]
    · by_cases h3 : pyLower m.role = "assistant"
      · simp [h1, h2, h3, String.append_assoc]
      · simp [h1, h2, h3, String.append_empty]

theorem hfFoldl_join (l : List ChatMessage) (a : String) :
    l.foldl hfStep a = a ++ String.join (l.map hfRenderMessage) := by
  induction l generalizing a with
  | nil => exact (String.append_empty a).symm
  | cons m ms ih =>
      show ms.foldl hfStep (hfStep a m) = _
      rw [ih, hfStep_eq_append, List.map_cons, join_cons, String.append_assoc]

theorem hfFlatten_eq_join (l : List ChatMessage) :
    hfFlattenMessages l
      = String.join (l.map hfRenderMessage) ++ "<|assistant|>\n" := by
  unfold hfFlattenMessages
  rw [hfFoldl_join, String.empty_append]

/-! ## Claim theorems -/

/-- C9: the Hugging Face chat path deterministically flattens a message
sequence into the concatenation, in original message order, of the
role-delimiter blocks of its messages, terminated with the open
"<|assistant|>\n" marker — the function equals the spec-side description
`hfSpecFlatten`, so the same sequence always yields the same string. -/
theorem hf_chat_flatten_deterministic_ordered (messages : List ChatMessage) :
    hfFlattenMessages messages = hfSpecFlatten messages := by
  rw [hfFlatten_eq_join]
  rfl

/-- C10: a message whose lowercased role is none of "system", "user",
"assistant" contributes nothing to the flattened prompt: a list of only
such messages flattens to exactly "<|assistant|>\n", and inserting such a
list anywhere leaves the flattening unchanged. -/
theorem hf_chat_unknown_roles_dropped (messages xs ys : List ChatMessage)
    (h : ∀ m ∈ messages, pyLower m.role ≠ "system" ∧ pyLower m.role ≠ "user" ∧
      pyLower m.role ≠ "assistant") :
    hfFlattenMessages messages = "<|assistant|>\n" ∧
    hfFlattenMessages (xs ++ messages ++ ys) = hfFlattenMessages (xs ++ ys) := by
  have hrender : ∀ m ∈ messages, hfRenderMessage m = "" := by
    intro m hm
    rcases h m hm with ⟨h1, h2, h3⟩
    simp [hfRenderMessage, h1, h2, h3]
  have hjoin : String.join (messages.map hfRenderMessage) = "" := by
    refine join_all_empty _ ?_
    intro s hs
    rcases List.mem_map.mp hs with ⟨m, hm, rfl⟩
    exact hrender m hm
  constructor
  · rw [hfFlatten_eq_join, hjoin, String.empty_append]
  · rw [hfFlatten_eq_join, hfFlatten_eq_join]
    simp only [List.map_append, join_append, hjoin, String.append_empty]

/-- Witness for C10 at a concrete list of unknown-role messages. -/
theorem hf_chat_unknown_roles_dropped_witness :
    hfFlattenMessages [⟨"tool", "x"⟩, ⟨"FUNCTION", "y"⟩] = "<|assistant|>\n" ∧
    hfFlattenMessages ([⟨"user", "hi"⟩] ++ [⟨"tool", "x"⟩, ⟨"FUNCTION", "y"⟩]
        ++ [⟨"Developer", "z"⟩])
      = hfFlattenMessages ([⟨"user", "hi"⟩] ++ [⟨"Developer", "z"⟩]) :=
  hf_chat_unknown_roles_dropped [⟨"tool", "x"⟩, ⟨"FUNCTION", "y"⟩]
    [⟨"user", "hi"⟩] [⟨"Developer", "z"⟩] (by decide)

/-- C4 (counterexample): the implemented estimator is `len // 4 + 1`, not
"len / 4 rounded up with a minimum of 1": on a 4-character string the code
returns 2 while the spec formula gives 1. -/
theorem count_tokens_not_ceil_counterexample :
    count_tokens "abcd" = 2 ∧ specTokenEstimate "abcd" = 1 ∧ (2 : Nat) ≠ 1 := by
  refine ⟨?_, ?_, ?_⟩ <;> decide

/-- C4 (amended): the estimator returns `len // 4 + 1`; the estimate for
the empty string is exactly 1, the estimate is monotone in length, and it
agrees with "len / 4 rounded up, minimum 1" except when the length is a
positive multiple of 4, where it is exactly one greater. -/
theorem count_tokens_amended (s1 s2 t : String) (hlt : s1.length < s2.length) :
    count_tokens "" = 1 ∧
    count_tokens s1 ≤ count_tokens s2 ∧
    count_tokens t = specTokenEstimate t
      + (if t.length % 4 = 0 ∧ 0 < t.length then 1 else 0) := by
  refine ⟨rfl, ?_, ?_⟩
  · simp only [count_tokens]
    omega
  · simp only [count_tokens, specTokenEstimate]
    by_cases h : t.length % 4 = 0 ∧ 0 < t.length
    · simp only [if_pos h]
      omega
    · simp only [if_neg h]
      omega

/-- Witness for C4's amended theorem at s1 = "a", s2 = "abcde", t = "abcd". -/
theorem count_tokens_amended_witness :
    count_tokens "" = 1 ∧
    count_tokens "a" ≤ count_tokens "abcde" ∧
    count_tokens "abcd" = specTokenEstimate "abcd"
      + (if "abcd".length % 4 = 0 ∧ 0 < "abcd".length then 1 else 0) :=
  count_tokens_amended "a" "abcde" "abcd" (by decide)

/-- C2 (counterexample): two tuples that differ (in the text and voice-name
fields) but whose colon-joined parameter strings coincide — the ":"
separator is not escaped, so "a:v" / "w" and "a" / "v:w" produce the same
pre-hash string, hence the same digest and the same cache file under any
digest function (exhibited with the identity digest). -/
theorem cache_key_collision_counterexample :
    (⟨"a:v", "w", "1.0", "0.0", "FEMALE", "en-US", "0.0"⟩ : SynthesisParams)
      ≠ ⟨"a", "v:w", "1.0", "0.0", "FEMALE", "en-US", "0.0"⟩ ∧
    paramsStr ⟨"a:v", "w", "1.0", "0.0", "FEMALE", "en-US", "0.0"⟩
      = paramsStr ⟨"a", "v:w", "1.0", "0.0", "FEMALE", "en-US", "0.0"⟩ ∧
    cacheFilename id "cache" ⟨"a:v", "w", "1.0", "0.0", "FEMALE", "en-US", "0.0"⟩
      = cacheFilename id "cache" ⟨"a", "v:w", "1.0", "0.0", "FEMALE", "en-US", "0.0"⟩ := by
  refine ⟨?_, ?_, ?_⟩ <;> decide

/-- C2 (amended): computing the cache key twice on the same tuple yields
the same key, and — under an idealized injective digest — tuples whose
colon-joined parameter strings differ map to different keys; tuples that
differ only by shifting a ":" across a field boundary do not. -/
theorem cache_key_amended (hash : String → String) (p q : SynthesisParams)
    (hinj : Function.Injective hash) (hne : paramsStr p ≠ paramsStr q) :
    cacheKey hash p = cacheKey hash p ∧
    cacheKey hash p ≠ cacheKey hash q := by
  refine ⟨rfl, fun h => hne (hinj h)⟩

/-- Witness for C2's amended theorem with the identity digest and two
tuples differing in the text field. -/
theorem cache_key_amended_witness :
    cacheKey id ⟨"hello", "v", "1.0", "0.0", "FEMALE", "en-US", "0.0"⟩
      = cacheKey id ⟨"hello", "v", "1.0", "0.0", "FEMALE", "en-US", "0.0"⟩ ∧
    cacheKey id ⟨"hello", "v", "1.0", "0.0", "FEMALE", "en-US", "0.0"⟩
      ≠ cacheKey id ⟨"world", "v", "1.0", "0.0", "FEMALE", "en-US", "0.0"⟩ :=
  cache_key_amended id _ _ Function.injective_id (by decide)

/-- C1: with caching enabled and a cache file that exists, whose stat
reports a nonzero size and whose read succeeds, `synthesize_text` returns
exactly the cached bytes and performs zero provider calls. -/
theorem synthesize_cache_hit_no_provider_call (env : CacheEnv)
    (providerAudio bytes : List Nat) (size : Nat)
    (hex : env.pathExists = true) (hstat : env.statResult = .ok size)
    (hpos : 0 < size) (hread : env.readResult = .ok bytes) :
    synthesize_text true env providerAudio
      = { audio := bytes, providerCalls := 0, cacheWriteErrorLogged := false } := by
  simp [synthesize_text, hex, hstat, hpos, hread]

/-- Witness for C1 at a concrete primed cache. -/
theorem synthesize_cache_hit_witness :
    synthesize_text true ⟨true, .ok 3, .ok [1, 2, 3], .ok ()⟩ [9, 9]
      = { audio := [1, 2, 3], providerCalls := 0, cacheWriteErrorLogged := false } :=
  synthesize_cache_hit_no_provider_call _ _ _ 3 rfl rfl (by decide) rfl

theorem synthesize_miss_of_cache_failure (env : CacheEnv)
    (providerAudio : List Nat) (e : String)
    (hfail : env.statResult = .error e ∨ env.statResult = .ok 0 ∨
      env.readResult = .error e) :
    (synthesize_text true env providerAudio).audio = providerAudio ∧
    (synthesize_text true env providerAudio).providerCalls = 1 := by
  rcases hfail with h | h | h
  · cases hb : env.pathExists <;> simp [synthesize_text, h, hb]
  · cases hb : env.pathExists <;> simp [synthesize_text, h, hb]
  · cases hb : env.pathExists <;> cases hs : env.statResult <;>
      simp [synthesize_text, h, hb, hs]

/-- C8: cache failures never change the outcome of a successful synthesis —
a stat exception, a zero-byte entry or a read exception is treated as a
miss (the provider is called once and its audio returned), the returned
audio does not depend on the cache-write outcome, and a failing cache
write is logged while the audio is still returned. -/
theorem cache_failures_do_not_change_outcome (env : CacheEnv)
    (providerAudio : List Nat) (e : String) (w : Except String Unit)
    (hfail : env.statResult = .error e ∨ env.statResult = .ok 0 ∨
      env.readResult = .error e) :
    (synthesize_text true env providerAudio).audio = providerAudio ∧
    (synthesize_text true env providerAudio).providerCalls = 1 ∧
    (synthesize_text true { env with writeResult := w } providerAudio).audio
      = providerAudio ∧
    (synthesize_text true { env with writeResult := .error e }
        providerAudio).cacheWriteErrorLogged = true := by
  refine ⟨(synthesize_miss_of_cache_failure env providerAudio e hfail).1,
    (synthesize_miss_of_cache_failure env providerAudio e hfail).2, ?_, ?_⟩
  · exact (synthesize_miss_of_cache_failure
      { env with writeResult := w } providerAudio e hfail).1
  · rcases hfail with h | h | h
    · cases hb : env.pathExists <;> simp [synthesize_text, h, hb]
    · cases hb : env.pathExists <;> simp [synthesize_text, h, hb]
    · cases hb : env.pathExists <;> cases hs : env.statResult <;>
        simp [synthesize_text, h, hb, hs]

/-- Witness for C8 at a cache whose stat raises and whose write fails. -/
theorem cache_failures_witness :
    (synthesize_text true ⟨true, .error "io", .ok [1], .error "io"⟩ [7, 7]).audio
      = [7, 7] ∧
    (synthesize_text true ⟨true, .error "io", .ok [1], .error "io"⟩
        [7, 7]).providerCalls = 1 ∧
    (synthesize_text true
        { (⟨true, .error "io", .ok [1], .error "io"⟩ : CacheEnv) with
          writeResult := .error "disk full" } [7, 7]).audio = [7, 7] ∧
    (synthesize_text true
        { (⟨true, .error "io", .ok [1], .error "io"⟩ : CacheEnv) with
          writeResult := .error "io" } [7, 7]).cacheWriteErrorLogged = true :=
  cache_failures_do_not_change_outcome ⟨true, .error "io", .ok [1], .error "io"⟩
    [7, 7] "io" (.error "disk full") (Or.inl rfl)

theorem generate_completion_trace_nodup (provider : String)
    (perplexity huggingface : Except String String) :
    ((generate_completion provider perplexity huggingface).2).Nodup := by
  unfold generate_completion
  by_cases h1 : provider = "perplexity"
  · simp only [if_pos h1]
    cases perplexity with
    | ok r => show List.Nodup ["perplexity"] ; decide
    | error e =>
        cases huggingface <;>
          { show List.Nodup ["perplexity", "huggingface"] ; decide }
  · simp only [if_neg h1]
    by_cases h2 : provider = "huggingface"
    · simp only [if_pos h2]
      cases huggingface with
      | ok r => show List.Nodup ["huggingface"] ; decide
      | error e =>
          cases perplexity <;>
            { show List.Nodup ["huggingface", "perplexity"] ; decide }
    · simp only [if_neg h2]
      show List.Nodup [] ; decide

theorem generate_chat_completion_trace_nodup (provider : String)
    (pc hc : List ChatMessage → Except String String)
    (messages : List ChatMessage) :
    ((generate_chat_completion provider pc hc messages).2).Nodup := by
  unfold generate_chat_completion
  by_cases h1 : provider = "perplexity"
  · simp only [if_pos h1]
    cases pc messages with
    | ok r => show List.Nodup ["perplexity"] ; decide
    | error e =>
        cases hc messages <;>
          { show List.Nodup ["perplexity", "huggingface"] ; decide }
  · simp only [if_neg h1]
    by_cases h2 : provider = "huggingface"
    · simp only [if_pos h2]
      cases hc messages with
      | ok r => show List.Nodup ["huggingface"] ; decide
      | error e =>
          cases pc messages <;>
            { show List.Nodup ["huggingface", "perplexity"] ; decide }
    · simp only [if_neg h2]
      show List.Nodup [] ; decide

/-- C3: in `generate_completion` and `generate_chat_completion` the trace
of attempted providers never repeats a provider (the chain is linear and
non-cyclic), and when the primary and the fallback both fail, the error
surfaced to the caller is the fallback provider's failure — for each of
the two configured primaries and both entry points. -/
theorem fallback_at_most_once_last_error (provider : String)
    (perplexity huggingface : Except String String)
    (pc hc : List ChatMessage → Except String String)
    (messages : List ChatMessage) (e1 e2 : String)
    (hpc : pc messages = .error e1) (hhc : hc messages = .error e2) :
    ((generate_completion provider perplexity huggingface).2).Nodup ∧
    ((generate_chat_completion provider pc hc messages).2).Nodup ∧
    (generate_completion "perplexity" (.error e1) (.error e2)).1 = .error e2 ∧
    (generate_completion "huggingface" (.error e1) (.error e2)).1 = .error e1 ∧
    (generate_chat_completion "perplexity" pc hc messages).1 = .error e2 ∧
    (generate_chat_completion "huggingface" pc hc messages).1 = .error e1 := by
  refine ⟨generate_completion_trace_nodup provider perplexity huggingface,
    generate_chat_completion_trace_nodup provider pc hc messages,
    by simp [generate_completion], by simp [generate_completion], ?_, ?_⟩
  · simp [generate_chat_completion, hpc, hhc]
  · simp [generate_chat_completion, hpc, hhc]

/-- Witness for C3 with both providers failing. -/
theorem fallback_at_most_once_last_error_witness :
    ((generate_completion "perplexity" (.error "E1") (.error "E2")).2).Nodup ∧
    ((generate_chat_completion "perplexity" (fun _ => .error "E1")
        (fun _ => .error "E2") []).2).Nodup ∧
    (generate_completion "perplexity" (.error "E1") (.error "E2")).1
      = .error "E2" ∧
    (generate_completion "huggingface" (.error "E1") (.error "E2")).1
      = .error "E1" ∧
    (generate_chat_completion "perplexity" (fun _ => .error "E1")
        (fun _ => .error "E2") []).1 = .error "E2" ∧
    (generate_chat_completion "huggingface" (fun _ => .error "E1")
        (fun _ => .error "E2") []).1 = .error "E1" :=
  fallback_at_most_once_last_error "perplexity" (.error "E1") (.error "E2")
    (fun _ => .error "E1") (fun _ => .error "E2") [] "E1" "E2" rfl rfl

/-- C6 (counterexample): a call with an empty message list is not rejected
before a provider call — the primary provider is attempted on the empty
list, and its answer is returned as if the request were valid. -/
theorem empty_messages_not_rejected_counterexample :
    (generate_chat_completion "perplexity" (fun _ => .ok "pong")
        (fun _ => .ok "hf") []).2 = ["perplexity"] ∧
    (generate_chat_completion "perplexity" (fun _ => .ok "pong")
        (fun _ => .ok "hf") []).1 = .ok "pong" :=
  ⟨rfl, rfl⟩

/-- C6 (amended): no request-shape validation exists — an empty message
list is passed straight to the primary provider, whose outcome is surfaced
like that of any other request; no distinct pre-call typed failure is
produced. -/
theorem empty_messages_reach_provider
    (pc hc : List ChatMessage → Except String String) (r : String)
    (hpc : pc [] = .ok r) :
    (generate_chat_completion "perplexity" pc hc []).2 = ["perplexity"] ∧
    (generate_chat_completion "perplexity" pc hc []).1 = .ok r := by
  simp [generate_chat_completion, hpc]

/-- Witness for C6's amended theorem: an empty message list reaches the
provider and its answer comes back. -/
theorem empty_messages_reach_provider_witness :
    (generate_chat_completion "perplexity" (fun _ => .ok "reply")
        (fun _ => .error "down") []).2 = ["perplexity"] ∧
    (generate_chat_completion "perplexity" (fun _ => .ok "reply")
        (fun _ => .error "down") []).1 = .ok "reply" :=
  empty_messages_reach_provider (fun _ => .ok "reply")
    (fun _ => .error "down") "reply" rfl

/-- C5 (counterexample): a 200 body missing the expected `generated_text`
field does not make the Hugging Face adapter fail — both the non-empty
list shape and the plain object shape return the empty string as a
successful result. -/
theorem hf_missing_field_returns_empty_counterexample :
    parseHuggingfaceBody (.arr [.obj [("foo", .str "bar")]]) = .ok (.str "") ∧
    parseHuggingfaceBody (.obj []) = .ok (.str "") :=
  ⟨rfl, rfl⟩

/-- C5 (amended): on a 200 body missing the expected field, the Perplexity
adapter fails with its parse error, but the Hugging Face adapter returns
the empty string as the generated text instead of failing. -/
theorem missing_field_parsing_amended (fields gfields : List (String × Json))
    (hch : fields.lookup "choices" = none)
    (hgen : gfields.lookup "generated_text" = none) :
    parsePerplexityBody (.obj fields)
      = .error "Failed to parse Perplexity API response" ∧
    parseHuggingfaceBody (.obj gfields) = .ok (.str "") ∧
    parseHuggingfaceBody (.arr [.obj gfields]) = .ok (.str "") := by
  refine ⟨?_, ?_, ?_⟩ <;>
    simp [parsePerplexityBody, parseHuggingfaceBody, hch, hgen]

/-- Witness for C5's amended theorem at concrete field lists without the
expected keys. -/
theorem missing_field_parsing_amended_witness :
    parsePerplexityBody (.obj [])
      = .error "Failed to parse Perplexity API response" ∧
    parseHuggingfaceBody (.obj [("foo", .str "bar")]) = .ok (.str "") ∧
    parseHuggingfaceBody (.arr [.obj [("foo", .str "bar")]]) = .ok (.str "") :=
  missing_field_parsing_amended [] [("foo", .str "bar")] rfl rfl

/-- C7 (counterexample): `LLMService.__init__` does not fail fast when the
mandatory API key is absent — with no key argument and no key in settings,
construction completes and returns an instance with an empty key, merely
recording the logged warning. -/
theorem llm_init_missing_key_counterexample :
    llmServiceInit "" "" "pplx-70b-online"
      = ({ api_key := "", model := "pplx-70b-online" }, true) :=
  rfl

/-- C7 (amended): the first call to each singleton accessor constructs and
stores the instance (reading the configuration at construction time) and
every subsequent call returns the same stored instance; but a missing API
key does not make construction fail — `LLMService.__init__` only logs a
warning and constructs the instance anyway. -/
theorem singleton_accessor_amended (s : LLMServiceState) (v : VoiceServiceState)
    (settings_api_key settings_model : String)
    (env_credentials : Option String) (default_cache_dir : String) :
    (get_llm_service none settings_api_key settings_model).2
      = some (get_llm_service none settings_api_key settings_model).1 ∧
    get_llm_service (some s) settings_api_key settings_model = (s, some s) ∧
    (get_llm_service none settings_api_key settings_model).1.api_key
      = settings_api_key ∧
    llmServiceInit "" "" "" = ({ api_key := "", model := "pplx-70b-online" }, true) ∧
    (get_voice_synthesis_service none env_credentials default_cache_dir).2
      = some (get_voice_synthesis_service none env_credentials default_cache_dir).1 ∧
    get_voice_synthesis_service (some v) env_credentials default_cache_dir
      = (v, some v) := by
  refine ⟨rfl, rfl, ?_, rfl, rfl, rfl⟩
  simp [get_llm_service, llmServiceInit]

end InterviewMe
